import Mathlib

/-!
# Verification of the Avalon game engine (services/avalon_game.go)

A shallow embedding of the server-authoritative Avalon game state machine:
the data model (`AvalonState` and friends), role assignment (`assignRoles`),
the per-viewer visibility projection (`FilterStateForPlayer`), and the three
quest-phase action handlers (`handleQuestSelection`, `handleQuestVote`,
`handleQuestPerformance`).

Modelling conventions:
* Go `map[string]bool` becomes an association list `List (String × Bool)`;
  every insertion in the source is guarded by a membership check, so keys
  never repeat and list length coincides with map size.
* Fallible handlers return `Except String AvalonState`, carrying the exact
  Go error strings.  A Go runtime panic (nil-pointer dereference) is not an
  error return; it is embedded as a distinguished `.error nilPointerPanic`
  so theorems can tell the two apart.
* Go's non-deterministic shuffle is factored out: `assignRoles` receives the
  shuffled index list as an argument and theorems quantify over permutations.
-/

/-- Go `"runtime error: invalid memory address or nil pointer dereference"`:
the message of the runtime panic raised when a nil `*AvalonQuest` is
dereferenced.  Used to embed crash outcomes distinctly from error returns. -/
def nilPointerPanic : String :=
  "runtime error: invalid memory address or nil pointer dereference"

/-- Options struct (`AvalonOptions` in avalon_game.go). -/
structure AvalonOptions where
  enableMerlin : Bool
  enablePercival : Bool
  enableMorgana : Bool
  enableOberon : Bool
  enableMordred : Bool
  useStrictRules : Bool
deriving Repr, DecidableEq, Inhabited

/-- `AvalonPlayer` in avalon_game.go. -/
structure AvalonPlayer where
  id : String
  username : String
  role : String
  team : String
  isLeader : Bool
deriving Repr, DecidableEq, Inhabited

/-- `AvalonQuest` in avalon_game.go.  `votes` models the Go map. -/
structure AvalonQuest where
  round : Nat
  requiredPlayers : Nat
  selectedPlayers : List String
  votes : List (String × Bool)
  results : List Bool
  status : String
deriving Repr, DecidableEq, Inhabited

/-- `QuestRequirement` in avalon_game.go. -/
structure QuestRequirement where
  playerCount : Nat
  quest1Players : Nat
  quest2Players : Nat
  quest3Players : Nat
  quest4Players : Nat
  quest5Players : Nat
  failsRequiredForQuest4 : Nat
deriving Repr, DecidableEq, Inhabited

/-- `AvalonState` in avalon_game.go.  `currentQuest` models the Go pointer
field `*AvalonQuest` as an `Option`; handlers that dereference it while it is
`none` correspond to runtime panics in the source. -/
structure AvalonState where
  players : List AvalonPlayer
  currentRound : Nat
  leader : Nat
  questTracker : List AvalonQuest
  currentQuest : Option AvalonQuest
  voteTrack : Nat
  gameOver : Bool
  winningTeam : String
  winners : List String
  phase : String
  options : AvalonOptions
  questRequirements : List QuestRequirement
deriving Repr, DecidableEq, Inhabited

/-- Loop body of `findPlayerIndex`: scan the player list carrying the index
counter, returning the index of the first player whose id matches. -/
def findIndexFrom (pid : String) : Nat → List AvalonPlayer → Option Nat
  | _, [] => none
  | k, p :: ps => if p.id = pid then some k else findIndexFrom pid (k + 1) ps

/-- `findPlayerIndex` in avalon_game.go (Go returns -1 when absent; here
`none`). -/
def findPlayerIndex (s : AvalonState) (pid : String) : Option Nat :=
  findIndexFrom pid 0 s.players

/-- One in-place write `g.state.Players[i].Role = r; ...Team = t` of the Go
source, as a functional list update. -/
def setRoleTeam : List AvalonPlayer → Nat → String → String → List AvalonPlayer
  | [], _, _, _ => []
  | p :: ps, 0, r, t => { p with role := r, team := t } :: ps
  | p :: ps, i + 1, r, t => p :: setRoleTeam ps i r t

/-- One optional-role block of `assignRoles`
(`if enabled && len(idxs) > 0 { write role at idxs[0]; idxs = idxs[1:] }`).
The Go source repeats this shape for Merlin, Percival, Morgana, Mordred and
Oberon. -/
def assignOptional (ps : List AvalonPlayer) (idxs : List Nat) (enabled : Bool)
    (r t : String) : List AvalonPlayer × List Nat :=
  if enabled ∧ 0 < idxs.length then
    (setRoleTeam ps (idxs.headD 0) r t, idxs.tail)
  else (ps, idxs)

/-- The good-team half of `assignRoles` ("Assign good team roles first"):
Merlin and Percival from the front of the shuffled good partition when
enabled, the rest Loyal Servants. -/
def assignGood (ps : List AvalonPlayer) (goodIndices : List Nat)
    (opts : AvalonOptions) : List AvalonPlayer :=
  let st1 := assignOptional ps goodIndices opts.enableMerlin "merlin" "good"
  let st2 := assignOptional st1.1 st1.2 opts.enablePercival "percival" "good"
  st2.2.foldl (fun a i => setRoleTeam a i "loyal" "good") st2.1

/-- The evil-team half of `assignRoles` ("Assign evil team roles"): the
Assassin at the front of the evil partition (the source indexes
`evilIndices[0]` unconditionally; with the 5–10 player counts enforced at
`Init` the partition is nonempty and `headD 0` coincides with that access),
then Morgana, Mordred and Oberon when enabled, the rest generic Minions. -/
def assignEvil (ps : List AvalonPlayer) (evilIndices : List Nat)
    (opts : AvalonOptions) : List AvalonPlayer :=
  let ps4 := setRoleTeam ps (evilIndices.headD 0) "assassin" "evil"
  let st3 := assignOptional ps4 evilIndices.tail opts.enableMorgana "morgana" "evil"
  let st4 := assignOptional st3.1 st3.2 opts.enableMordred "mordred" "evil"
  let st5 := assignOptional st4.1 st4.2 opts.enableOberon "oberon" "evil"
  st5.2.foldl (fun a i => setRoleTeam a i "minion" "evil") st5.1

/-- `assignRoles` in avalon_game.go, with the shuffled index list passed in
(the source shuffles `indices` with its RNG first; theorems range over all
permutations): split the shuffled indices into the good prefix and the evil
suffix of size given by the player-count table, then assign each half. -/
def assignRoles (ps : List AvalonPlayer) (indices : List Nat)
    (opts : AvalonOptions) : List AvalonPlayer :=
  let playerCount := ps.length
  let evilCount :=
    if playerCount = 9 then 3 else if playerCount = 10 then 4 else playerCount / 3
  let goodIndices := indices.take (playerCount - evilCount)
  let evilIndices := indices.drop (playerCount - evilCount)
  assignEvil (assignGood ps goodIndices opts) evilIndices opts

/-- `getQuestRequirements` in avalon_game.go: the fixed per-player-count
table. -/
def getQuestRequirements : List QuestRequirement :=
  [ { playerCount := 5, quest1Players := 2, quest2Players := 3, quest3Players := 2,
      quest4Players := 3, quest5Players := 3, failsRequiredForQuest4 := 1 },
    { playerCount := 6, quest1Players := 2, quest2Players := 3, quest3Players := 4,
      quest4Players := 3, quest5Players := 4, failsRequiredForQuest4 := 1 },
    { playerCount := 7, quest1Players := 2, quest2Players := 3, quest3Players := 3,
      quest4Players := 4, quest5Players := 4, failsRequiredForQuest4 := 2 },
    { playerCount := 8, quest1Players := 3, quest2Players := 4, quest3Players := 4,
      quest4Players := 5, quest5Players := 5, failsRequiredForQuest4 := 2 },
    { playerCount := 9, quest1Players := 3, quest2Players := 4, quest3Players := 4,
      quest4Players := 5, quest5Players := 5, failsRequiredForQuest4 := 2 },
    { playerCount := 10, quest1Players := 3, quest2Players := 4, quest3Players := 4,
      quest4Players := 5, quest5Players := 5, failsRequiredForQuest4 := 2 } ]

/-- `advanceLeader` in avalon_game.go: clear the flag on the old leader,
step the index circularly, set the flag on the new leader. -/
def advanceLeader (s : AvalonState) : AvalonState :=
  let ps := s.players.set s.leader
    { s.players.getD s.leader default with isLeader := false }
  let newLeader := (s.leader + 1) % ps.length
  { s with
    players := ps.set newLeader { ps.getD newLeader default with isLeader := true },
    leader := newLeader }

/-- `advanceRound` in avalon_game.go. -/
def advanceRound (s : AvalonState) : AvalonState :=
  let s := { s with currentRound := s.currentRound + 1, currentQuest := none,
                    voteTrack := 0 }
  let s := advanceLeader s
  { s with phase := "quest_selection" }

/-- `setWinners` in avalon_game.go: ids of all players on the winning team,
in player order. -/
def setWinners (s : AvalonState) (winningTeam : String) : List String :=
  (s.players.filter (fun p => p.team = winningTeam)).map (fun p => p.id)

/-- The `switch playerRole` body of `FilterStateForPlayer`, applied to one
other player (the `i ≠ playerIndex` case of the loop).  The Go switch lists
`RoleAssassin, RoleMinion, RoleMorgana` in one case and `RoleMordred` in a
second case with an identical body; both are kept as separate branches. -/
def filterOtherPlayer (playerRole : String) (other : AvalonPlayer) : AvalonPlayer :=
  if playerRole = "merlin" then
    if other.role = "mordred" then { other with role := "", team := "" }
    else if other.team = "evil" then { other with team := "evil", role := "" }
    else { other with role := "", team := "" }
  else if playerRole = "percival" then
    if other.role = "merlin" ∨ other.role = "morgana" then
      { other with role := "merlin_or_morgana", team := "" }
    else { other with role := "", team := "" }
  else if playerRole = "assassin" ∨ playerRole = "minion" ∨ playerRole = "morgana" then
    if other.team = "evil" then
      if other.role ≠ "oberon" then { other with team := "evil", role := "" }
      else { other with role := "", team := "" }
    else { other with role := "", team := "" }
  else if playerRole = "mordred" then
    if other.team = "evil" then
      if other.role ≠ "oberon" then { other with team := "evil", role := "" }
      else { other with role := "", team := "" }
    else { other with role := "", team := "" }
  else if playerRole = "oberon" then
    { other with role := "", team := "" }
  else
    { other with role := "", team := "" }

/-- The player loop of `FilterStateForPlayer`: index `i` counts up from the
start; the entry at `playerIndex` is kept, every other entry is filtered.
The Go loop reads each `g.state.Players[i]` before overwriting it, so the
result is a pure function of the input list. -/
def filterPlayersFrom (playerRole : String) (playerIndex : Nat) :
    Nat → List AvalonPlayer → List AvalonPlayer
  | _, [] => []
  | i, p :: ps =>
    (if i = playerIndex then p else filterOtherPlayer playerRole p) ::
      filterPlayersFrom playerRole playerIndex (i + 1) ps

/-- `getPublicGameState` in avalon_game.go: strip all roles/teams and drop
the current quest's votes (Go sets the map to nil; modelled as `[]`). -/
def getPublicGameState (s : AvalonState) : AvalonState :=
  let s := { s with
    players := s.players.map (fun (p : AvalonPlayer) => { p with role := "", team := "" }) }
  match s.currentQuest with
  | none => s
  | some q => { s with currentQuest := some { q with votes := [] } }

/-- `FilterStateForPlayer` in avalon_game.go: the value the method returns
(as an `AvalonState` rather than its JSON encoding). -/
def FilterStateForPlayer (s : AvalonState) (playerID : String) : AvalonState :=
  match findPlayerIndex s playerID with
  | none => getPublicGameState s
  | some playerIndex =>
    let playerRole := (s.players.getD playerIndex default).role
    let s1 := { s with players := filterPlayersFrom playerRole playerIndex 0 s.players }
    match s1.currentQuest with
    | none => s1
    | some q =>
      let playerVotes : List (String × Bool) :=
        match q.votes.lookup playerID with
        | some v => [(playerID, v)]
        | none => []
      { s1 with currentQuest := some { q with votes := playerVotes } }

/-- The canonical game state after a `FilterStateForPlayer` call.  The Go
method copies only the struct header (`filteredState := g.state`): the
`Players` slice and the `CurrentQuest` pointer are shared with the canonical
state, so every filtering write — zeroing roles/teams in the loop, and the
`filteredState.CurrentQuest.Votes = playerVotes` rebind through the shared
pointee — lands in the canonical state as well.  No scalar struct field of
the copy is assigned, so after the call the canonical state holds exactly
the value the method returns.  (The same holds on the not-in-game branch via
`getPublicGameState`, which copies and writes the same way.) -/
def filterStateEffect (s : AvalonState) (playerID : String) : AvalonState :=
  FilterStateForPlayer s playerID

/-- The leader test of `handleQuestSelection`: the Go source computes
`playerIndex := findPlayerIndex(playerID)` and errors on
`playerIndex == -1 || !g.state.Players[playerIndex].IsLeader`; this function
is that combined condition, negated (`true` exactly when the actor resolves
to a player whose leader flag is set). -/
def isCurrentLeader (s : AvalonState) (pid : String) : Bool :=
  match findPlayerIndex s pid with
  | none => false
  | some i => (s.players.getD i default).isLeader

/-- `handleQuestSelection` in avalon_game.go, with the payload already
parsed into its `selected_players` list (the claim assumes a well-formed
payload).  The source reads `QuestTracker[CurrentRound-1]`; as in the
source this is only meaningful when the round index is in range, which the
theorems hypothesise. -/
def handleQuestSelection (s : AvalonState) (playerID : String)
    (selectedPlayers : List String) : Except String AvalonState :=
  if s.phase ≠ "quest_selection" then .error "not in quest selection phase"
  else if ¬ isCurrentLeader s playerID then
    .error "only the leader can select quest team"
  else
    let currentQuest := s.questTracker.getD (s.currentRound - 1) default
    if selectedPlayers.length ≠ currentQuest.requiredPlayers then
      .error "incorrect number of players selected for quest"
    else if selectedPlayers.any (fun id => findPlayerIndex s id = none) then
      .error "invalid player selected"
    else
      let q := { currentQuest with
        selectedPlayers := selectedPlayers, votes := [], status := "voting" }
      .ok { s with
        currentQuest := some q,
        questTracker := s.questTracker.set (s.currentRound - 1) q,
        phase := "quest_voting" }

/-- `handleQuestVote` in avalon_game.go, with the payload parsed to its
`approve` flag.  The Go source dereferences `CurrentQuest` to read the votes
map, and — on the rejection path with `VoteTrack < 5` — sets
`CurrentQuest = nil` and then executes
`QuestTracker[CurrentRound-1] = *CurrentQuest`, a nil-pointer dereference;
both dereferences of a nil quest are embedded as `.error nilPointerPanic`. -/
def handleQuestVote (s : AvalonState) (playerID : String) (approve : Bool) :
    Except String AvalonState :=
  if s.phase ≠ "quest_voting" then .error "not in quest voting phase"
  else if findPlayerIndex s playerID = none then .error "player not found"
  else
    match s.currentQuest with
    | none => .error nilPointerPanic
    | some q =>
      if (q.votes.lookup playerID).isSome then .error "player has already voted"
      else
        let votes := q.votes ++ [(playerID, approve)]
        let q := { q with votes := votes }
        let s := { s with currentQuest := some q }
        if votes.length = s.players.length then
          let approveCount := (votes.filter (fun kv => kv.2)).length
          if approveCount > s.players.length / 2 then
            let q := { q with status := "approved" }
            let s := { s with currentQuest := some q, voteTrack := 0,
                              phase := "quest_performance" }
            .ok { s with questTracker := s.questTracker.set (s.currentRound - 1) q }
          else
            let q := { q with status := "rejected" }
            let s := { s with currentQuest := some q, voteTrack := s.voteTrack + 1 }
            if s.voteTrack ≥ 5 then
              .ok { s with gameOver := true, winningTeam := "evil",
                           winners := setWinners s "evil", phase := "game_over" }
            else
              let s := advanceLeader s
              let _ := { s with currentQuest := none, phase := "quest_selection" }
              .error nilPointerPanic
        else .ok s

/-- `handleQuestPerformance` in avalon_game.go, with the payload parsed to
its `success` flag. -/
def handleQuestPerformance (s : AvalonState) (playerID : String)
    (success : Bool) : Except String AvalonState :=
  if s.phase ≠ "quest_performance" then .error "not in quest performance phase"
  else
    match findPlayerIndex s playerID with
    | none => .error "player not found"
    | some playerIndex =>
      match s.currentQuest with
      | none => .error nilPointerPanic
      | some q =>
        if ¬ q.selectedPlayers.contains playerID then
          .error "player not selected for quest"
        else if ¬ success ∧ (s.players.getD playerIndex default).team ≠ "evil" then
          .error "good team players cannot fail quests"
        else
          let q := { q with results := q.results ++ [success] }
          let s := { s with currentQuest := some q }
          if q.results.length = q.selectedPlayers.length then
            let failCount := (q.results.filter (fun b => !b)).length
            let failsRequired :=
              if s.currentRound = 4 ∧ s.players.length ≥ 7 then
                match s.questRequirements.find?
                    (fun req => req.playerCount = s.players.length) with
                | some req => req.failsRequiredForQuest4
                | none => 1
              else 1
            let q := { q with
              status := if failCount ≥ failsRequired then "fail" else "success" }
            let s := { s with
              currentQuest := some q,
              questTracker := s.questTracker.set (s.currentRound - 1) q }
            let successCount : Nat :=
              (s.questTracker.filter (fun qu => qu.status = "success")).length
            let failTotal : Nat :=
              (s.questTracker.filter (fun qu => qu.status = "fail")).length
            if successCount ≥ 3 then .ok { s with phase := "assassination" }
            else if failTotal ≥ 3 then
              .ok { s with gameOver := true, winningTeam := "evil",
                           winners := setWinners s "evil", phase := "game_over" }
            else .ok (advanceRound s)
          else .ok s

/-- Concrete-state helper: a player with the given id, role, team and
leader flag (username equal to the id). -/
def exPlayer (id role team : String) (lead : Bool) : AvalonPlayer :=
  { id := id, username := id, role := role, team := team, isLeader := lead }

/-- All optional roles enabled (the relevant fields of `AvalonOptions`). -/
def exOptions : AvalonOptions :=
  { enableMerlin := true, enablePercival := true, enableMorgana := true,
    enableOberon := true, enableMordred := true, useStrictRules := false }

/-- A concrete 5-player roster: Merlin (leader), Percival, a Loyal Servant,
the Assassin and a Minion. -/
def exPlayers : List AvalonPlayer :=
  [ exPlayer "p1" "merlin" "good" true,
    exPlayer "p2" "percival" "good" false,
    exPlayer "p3" "loyal" "good" false,
    exPlayer "p4" "assassin" "evil" false,
    exPlayer "p5" "minion" "evil" false ]

/-- The 5-player quest tracker right after the first proposal: quest 1 in
`voting` status, quests 2–5 pending, sizes from the 5-player table row. -/
def exTracker (q1 : AvalonQuest) : List AvalonQuest :=
  [ q1,
    { round := 2, requiredPlayers := 3, selectedPlayers := [], votes := [],
      results := [], status := "pending" },
    { round := 3, requiredPlayers := 2, selectedPlayers := [], votes := [],
      results := [], status := "pending" },
    { round := 4, requiredPlayers := 3, selectedPlayers := [], votes := [],
      results := [], status := "pending" },
    { round := 5, requiredPlayers := 3, selectedPlayers := [], votes := [],
      results := [], status := "pending" } ]

/-- A concrete mid-vote state: quest 1 proposed to `[p1, p2]`, four votes
already recorded (`p1`, `p2` reject; `p3`, `p4` approve), vote track `vt`. -/
def exVoting (vt : Nat) (votes : List (String × Bool)) : AvalonState :=
  let q1 : AvalonQuest :=
    { round := 1, requiredPlayers := 2, selectedPlayers := ["p1", "p2"],
      votes := votes, results := [], status := "voting" }
  { players := exPlayers,
    currentRound := 1,
    leader := 0,
    questTracker := exTracker q1,
    currentQuest := some q1,
    voteTrack := vt,
    gameOver := false,
    winningTeam := "",
    winners := [],
    phase := "quest_voting",
    options := exOptions,
    questRequirements := getQuestRequirements }

/-- Scenario B input: 2 approvals and 2 rejections recorded, vote track 0. -/
def exC1 : AvalonState :=
  exVoting 0 [("p1", false), ("p2", false), ("p3", true), ("p4", true)]

/-- Scenario C input: 4 rejections recorded, vote track already 4. -/
def exC4 : AvalonState :=
  exVoting 4 [("p1", false), ("p2", false), ("p3", false), ("p4", false)]


def exFilterState : AvalonState :=
  exVoting 0 [("p1", true), ("p2", false)]


/-- A concrete quest-performance state: quest 1 approved with team
`[p1, p2]`, full approval votes, no results submitted yet. -/
def exPerfQuest : AvalonQuest :=
  { round := 1, requiredPlayers := 2, selectedPlayers := ["p1", "p2"],
    votes := [("p1", true), ("p2", true), ("p3", true), ("p4", true), ("p5", true)],
    results := [], status := "approved" }

/-- The state in which `exPerfQuest` is being performed. -/
def exC8 : AvalonState :=
  { players := exPlayers,
    currentRound := 1,
    leader := 0,
    questTracker := exTracker exPerfQuest,
    currentQuest := some exPerfQuest,
    voteTrack := 0,
    gameOver := false,
    winningTeam := "",
    winners := [],
    phase := "quest_performance",
    options := exOptions,
    questRequirements := getQuestRequirements }

/-- A concrete quest-selection state: round 1 of the 5-player game, leader
`p1`, no quest proposed yet. -/
def exC9 : AvalonState :=
  { players := exPlayers,
    currentRound := 1,
    leader := 0,
    questTracker := exTracker
      { round := 1, requiredPlayers := 2, selectedPlayers := [], votes := [],
        results := [], status := "pending" },
    currentQuest := none,
    voteTrack := 0,
    gameOver := false,
    winningTeam := "",
    winners := [],
    phase := "quest_selection",
    options := exOptions,
    questRequirements := getQuestRequirements }

/-- Five players before role assignment (blank role/team, as `Init` builds
them). -/
def exBlankPlayers : List AvalonPlayer :=
  [ exPlayer "a1" "" "" false,
    exPlayer "a2" "" "" true,
    exPlayer "a3" "" "" false,
    exPlayer "a4" "" "" false,
    exPlayer "a5" "" "" false ]

/-- A concrete shuffled index order for the 5 blank players. -/
def exIndices : List Nat := [2, 0, 4, 1, 3]

/-- Seven players mid-game, for the round-4 two-fail rule. -/
def ex7Players : List AvalonPlayer :=
  [ exPlayer "q1" "merlin" "good" true,
    exPlayer "q2" "percival" "good" false,
    exPlayer "q3" "loyal" "good" false,
    exPlayer "q4" "loyal" "good" false,
    exPlayer "q5" "loyal" "good" false,
    exPlayer "q6" "assassin" "evil" false,
    exPlayer "q7" "minion" "evil" false ]

/-- Round-4 quest of the 7-player game: team of 4, three results already in
(one of them a fail). -/
def ex7Quest : AvalonQuest :=
  { round := 4, requiredPlayers := 4, selectedPlayers := ["q1", "q2", "q6", "q7"],
    votes := [("q1", true), ("q2", true), ("q3", true), ("q4", true),
              ("q5", true), ("q6", true), ("q7", true)],
    results := [true, true, false], status := "approved" }

/-- The 7-player round-4 performance state (`q7`, an evil member, still to
act). -/
def exC7 : AvalonState :=
  { players := ex7Players,
    currentRound := 4,
    leader := 2,
    questTracker :=
      [ { round := 1, requiredPlayers := 2, selectedPlayers := [], votes := [],
          results := [], status := "success" },
        { round := 2, requiredPlayers := 3, selectedPlayers := [], votes := [],
          results := [], status := "fail" },
        { round := 3, requiredPlayers := 3, selectedPlayers := [], votes := [],
          results := [], status := "success" },
        ex7Quest,
        { round := 5, requiredPlayers := 4, selectedPlayers := [], votes := [],
          results := [], status := "pending" } ],
    currentQuest := some ex7Quest,
    voteTrack := 0,
    gameOver := false,
    winningTeam := "",
    winners := [],
    phase := "quest_performance",
    options := exOptions,
    questRequirements := getQuestRequirements }

/-- The Scenario A style input: 4 approvals recorded, vote track 0; the
current quest of that state. -/
def exC6q : AvalonQuest :=
  { round := 1, requiredPlayers := 2, selectedPlayers := ["p1", "p2"],
    votes := [("p1", true), ("p2", true), ("p3", true), ("p4", true)],
    results := [], status := "voting" }

def exC6 : AvalonState := exVoting 0 exC6q.votes

instance : DecidableEq (Except String AvalonState) := fun a b =>
  match a, b with
  | .ok x, .ok y => if h : x = y then .isTrue (by rw [h]) else .isFalse (by simp [h])
  | .error x, .error y => if h : x = y then .isTrue (by rw [h]) else .isFalse (by simp [h])
  | .ok _, .error _ => .isFalse (by simp)
  | .error _, .ok _ => .isFalse (by simp)

/-! ## Shared lemmas -/

theorem findIndexFrom_bounds {pid : String} :
    ∀ {l : List AvalonPlayer} {k i : Nat}, findIndexFrom pid k l = some i →
      k ≤ i ∧ i - k < l.length := by
  intro l
  induction l with
  | nil => intro k i h; simp [findIndexFrom] at h
  | cons p ps ih =>
    intro k i h
    rw [findIndexFrom] at h
    by_cases hp : p.id = pid
    · simp [hp] at h
      simp only [List.length_cons]
      omega
    · simp [hp] at h
      have := ih h
      simp only [List.length_cons]
      omega

theorem findPlayerIndex_lt_length {s : AvalonState} {pid : String} {i : Nat}
    (h : findPlayerIndex s pid = some i) : i < s.players.length := by
  have := @findIndexFrom_bounds pid s.players 0 i h
  omega

theorem filterPlayersFrom_length (vr : String) (k : Nat) :
    ∀ (base : Nat) (l : List AvalonPlayer),
      (filterPlayersFrom vr k base l).length = l.length := by
  intro base l
  induction l generalizing base with
  | nil => rfl
  | cons p ps ih => simp [filterPlayersFrom, ih]

theorem filterPlayersFrom_getD (vr : String) (k : Nat) (d : AvalonPlayer) :
    ∀ (l : List AvalonPlayer) (base j : Nat), j < l.length →
      (filterPlayersFrom vr k base l).getD j d =
        (if base + j = k then l.getD j d else filterOtherPlayer vr (l.getD j d)) := by
  intro l
  induction l with
  | nil => intro base j h; simp at h
  | cons p ps ih =>
    intro base j hj
    cases j with
    | zero => simp [filterPlayersFrom]
    | succ j =>
      have hj' : j < ps.length := by simpa using hj
      simp only [filterPlayersFrom, List.getD_cons_succ]
      rw [ih (base + 1) j hj']
      have : base + 1 + j = base + (j + 1) := by omega
      rw [this]

theorem getD_set_self {α : Type} :
    ∀ (l : List α) (n : Nat) (a d : α), n < l.length → (l.set n a).getD n d = a := by
  intro l
  induction l with
  | nil => intro n a d h; simp at h
  | cons x xs ih =>
    intro n a d h
    cases n with
    | zero => rfl
    | succ n => exact ih n a d (by simpa using h)

theorem advanceRound_questTracker (s : AvalonState) :
    (advanceRound s).questTracker = s.questTracker := rfl

theorem find_req_fails_two (n : Nat) (h7 : 7 ≤ n) (h10 : n ≤ 10) :
    (getQuestRequirements.find? (fun req => req.playerCount = n)).map
      (fun r => r.failsRequiredForQuest4) = some 2 := by
  interval_cases n <;> decide

theorem setRoleTeam_length :
    ∀ (ps : List AvalonPlayer) (i : Nat) (r t : String),
      (setRoleTeam ps i r t).length = ps.length := by
  intro ps
  induction ps with
  | nil => intro i r t; rfl
  | cons p ps ih =>
    intro i r t
    cases i with
    | zero => rfl
    | succ i => simp [setRoleTeam, ih]

theorem getD_setRoleTeam_ne :
    ∀ (ps : List AvalonPlayer) (i j : Nat) (r t : String) (d : AvalonPlayer),
      j ≠ i → (setRoleTeam ps i r t).getD j d = ps.getD j d := by
  intro ps
  induction ps with
  | nil => intro i j r t d _; rfl
  | cons p ps ih =>
    intro i j r t d hne
    cases i with
    | zero =>
      cases j with
      | zero => exact absurd rfl hne
      | succ j => rfl
    | succ i =>
      cases j with
      | zero => rfl
      | succ j =>
        simp only [setRoleTeam, List.getD_cons_succ]
        exact ih i j r t d (by omega)

theorem getD_setRoleTeam_self :
    ∀ (ps : List AvalonPlayer) (i : Nat) (r t : String) (d : AvalonPlayer),
      i < ps.length →
      (setRoleTeam ps i r t).getD i d = { ps.getD i d with role := r, team := t } := by
  intro ps
  induction ps with
  | nil => intro i r t d h; simp at h
  | cons p ps ih =>
    intro i r t d h
    cases i with
    | zero => rfl
    | succ i =>
      simp only [setRoleTeam, List.getD_cons_succ]
      exact ih i r t d (by simpa using h)

theorem foldl_setRoleTeam_length (r t : String) :
    ∀ (l : List Nat) (ps : List AvalonPlayer),
      (l.foldl (fun a i => setRoleTeam a i r t) ps).length = ps.length := by
  intro l
  induction l with
  | nil => intro ps; rfl
  | cons a l ih =>
    intro ps
    simp only [List.foldl_cons]
    rw [ih, setRoleTeam_length]

theorem getD_foldl_setRoleTeam_ne (r t : String) :
    ∀ (l : List Nat) (ps : List AvalonPlayer) (j : Nat) (d : AvalonPlayer),
      j ∉ l → (l.foldl (fun a i => setRoleTeam a i r t) ps).getD j d = ps.getD j d := by
  intro l
  induction l with
  | nil => intro ps j d _; rfl
  | cons a l ih =>
    intro ps j d hj
    simp only [List.foldl_cons]
    rw [ih _ j d (fun h => hj (List.mem_cons_of_mem a h))]
    exact getD_setRoleTeam_ne ps a j r t d (fun h => hj (h ▸ List.mem_cons_self a l))

theorem getD_foldl_setRoleTeam_mem (r t : String) :
    ∀ (l : List Nat) (ps : List AvalonPlayer) (j : Nat) (d : AvalonPlayer),
      j ∈ l → j < ps.length →
      ((l.foldl (fun a i => setRoleTeam a i r t) ps).getD j d).role = r ∧
      ((l.foldl (fun a i => setRoleTeam a i r t) ps).getD j d).team = t := by
  intro l
  induction l with
  | nil => intro ps j d hj _; simp at hj
  | cons a l ih =>
    intro ps j d hj hlt
    simp only [List.foldl_cons]
    by_cases hjl : j ∈ l
    · exact ih _ j d hjl (by rw [setRoleTeam_length]; exact hlt)
    · have hja : j = a := by
        rcases List.mem_cons.mp hj with h | h
        · exact h
        · exact absurd h hjl
      subst hja
      rw [getD_foldl_setRoleTeam_ne r t l _ j d hjl,
        getD_setRoleTeam_self ps j r t d hlt]
      exact ⟨rfl, rfl⟩

theorem assignOptional_fst_length (ps : List AvalonPlayer) (idxs : List Nat)
    (en : Bool) (r t : String) :
    (assignOptional ps idxs en r t).1.length = ps.length := by
  unfold assignOptional
  split
  · exact setRoleTeam_length ps _ r t
  · rfl

theorem assignOptional_snd_subset (ps : List AvalonPlayer) (idxs : List Nat)
    (en : Bool) (r t : String) :
    ∀ x ∈ (assignOptional ps idxs en r t).2, x ∈ idxs := by
  unfold assignOptional
  split
  · intro x hx
    exact List.mem_of_mem_tail hx
  · intro x hx
    exact hx

theorem assignOptional_snd_nodup (ps : List AvalonPlayer) (idxs : List Nat)
    (en : Bool) (r t : String) (h : idxs.Nodup) :
    (assignOptional ps idxs en r t).2.Nodup := by
  unfold assignOptional
  split
  · exact h.sublist (List.tail_sublist idxs)
  · exact h

theorem getD_assignOptional_ne (ps : List AvalonPlayer) (idxs : List Nat)
    (en : Bool) (r t : String) (j : Nat) (d : AvalonPlayer) (hj : j ∉ idxs) :
    (assignOptional ps idxs en r t).1.getD j d = ps.getD j d := by
  unfold assignOptional
  split
  · next hc =>
    cases idxs with
    | nil => simp at hc
    | cons h tl =>
      exact getD_setRoleTeam_ne ps h j r t d
        (fun he => hj (he ▸ List.mem_cons_self h tl))
  · rfl

theorem getD_assignOptional_mem (ps : List AvalonPlayer) (idxs : List Nat)
    (en : Bool) (r t : String) (j : Nat) (d : AvalonPlayer)
    (hnd : idxs.Nodup) (hj : j ∈ idxs) (hlt : j < ps.length) :
    (((assignOptional ps idxs en r t).1.getD j d).role = r ∧
      ((assignOptional ps idxs en r t).1.getD j d).team = t ∧
      j ∉ (assignOptional ps idxs en r t).2) ∨
    ((assignOptional ps idxs en r t).1.getD j d = ps.getD j d ∧
      j ∈ (assignOptional ps idxs en r t).2) := by
  unfold assignOptional
  split
  · next hc =>
    cases idxs with
    | nil => simp at hc
    | cons h tl =>
      by_cases hjh : j = h
      · subst hjh
        left
        simp only [List.headD_cons, List.tail_cons]
        rw [getD_setRoleTeam_self ps j r t d hlt]
        exact ⟨rfl, rfl, (List.nodup_cons.mp hnd).1⟩
      · right
        simp only [List.headD_cons, List.tail_cons]
        rw [getD_setRoleTeam_ne ps h j r t d hjh]
        refine ⟨rfl, ?_⟩
        rcases List.mem_cons.mp hj with he | ht
        · exact absurd he hjh
        · exact ht
  · right
    exact ⟨rfl, hj⟩

theorem assignGood_length (ps : List AvalonPlayer) (g : List Nat)
    (o : AvalonOptions) : (assignGood ps g o).length = ps.length := by
  simp only [assignGood]
  rw [foldl_setRoleTeam_length, assignOptional_fst_length, assignOptional_fst_length]

theorem getD_assignGood_ne (ps : List AvalonPlayer) (g : List Nat)
    (o : AvalonOptions) (j : Nat) (d : AvalonPlayer) (hj : j ∉ g) :
    (assignGood ps g o).getD j d = ps.getD j d := by
  simp only [assignGood]
  have h1 : j ∉ (assignOptional ps g o.enableMerlin "merlin" "good").2 :=
    fun h => hj (assignOptional_snd_subset _ _ _ _ _ _ h)
  have h2 : j ∉ (assignOptional (assignOptional ps g o.enableMerlin "merlin" "good").1
      (assignOptional ps g o.enableMerlin "merlin" "good").2
      o.enablePercival "percival" "good").2 :=
    fun h => h1 (assignOptional_snd_subset _ _ _ _ _ _ h)
  rw [getD_foldl_setRoleTeam_ne _ _ _ _ _ _ h2,
    getD_assignOptional_ne _ _ _ _ _ _ _ h1,
    getD_assignOptional_ne _ _ _ _ _ _ _ hj]

theorem getD_assignGood_mem (ps : List AvalonPlayer) (g : List Nat)
    (o : AvalonOptions) (j : Nat) (d : AvalonPlayer)
    (hnd : g.Nodup) (hj : j ∈ g) (hlt : j < ps.length) :
    ((assignGood ps g o).getD j d).team = "good" ∧
    (((assignGood ps g o).getD j d).role = "merlin" ∨
     ((assignGood ps g o).getD j d).role = "percival" ∨
     ((assignGood ps g o).getD j d).role = "loyal") := by
  simp only [assignGood]
  rcases getD_assignOptional_mem ps g o.enableMerlin "merlin" "good" j d hnd hj hlt
    with ⟨hr, ht, hout⟩ | ⟨_, hin⟩
  · have h2 : j ∉ (assignOptional (assignOptional ps g o.enableMerlin "merlin" "good").1
        (assignOptional ps g o.enableMerlin "merlin" "good").2
        o.enablePercival "percival" "good").2 :=
      fun h => hout (assignOptional_snd_subset _ _ _ _ _ _ h)
    rw [getD_foldl_setRoleTeam_ne _ _ _ _ _ _ h2,
      getD_assignOptional_ne _ _ _ _ _ _ _ hout]
    exact ⟨ht, Or.inl hr⟩
  · have hnd1 := assignOptional_snd_nodup ps g o.enableMerlin "merlin" "good" hnd
    have hlt1 : j < (assignOptional ps g o.enableMerlin "merlin" "good").1.length := by
      rw [assignOptional_fst_length]
      exact hlt
    rcases getD_assignOptional_mem (assignOptional ps g o.enableMerlin "merlin" "good").1
        (assignOptional ps g o.enableMerlin "merlin" "good").2
        o.enablePercival "percival" "good" j d hnd1 hin hlt1
      with ⟨hr, ht, hout⟩ | ⟨_, hin2⟩
    · rw [getD_foldl_setRoleTeam_ne _ _ _ _ _ _ hout]
      exact ⟨ht, Or.inr (Or.inl hr)⟩
    · have hlt2 : j < (assignOptional (assignOptional ps g o.enableMerlin "merlin" "good").1
          (assignOptional ps g o.enableMerlin "merlin" "good").2
          o.enablePercival "percival" "good").1.length := by
        rw [assignOptional_fst_length]
        exact hlt1
      have hfold := getD_foldl_setRoleTeam_mem "loyal" "good" _ _ j d hin2 hlt2
      exact ⟨hfold.2, Or.inr (Or.inr hfold.1)⟩

theorem optchain_length (ps : List AvalonPlayer) (idxs : List Nat)
    (e1 e2 e3 : Bool) (r1 r2 r3 rf t : String) :
    ((assignOptional (assignOptional (assignOptional ps idxs e1 r1 t).1
        (assignOptional ps idxs e1 r1 t).2 e2 r2 t).1
        (assignOptional (assignOptional ps idxs e1 r1 t).1
          (assignOptional ps idxs e1 r1 t).2 e2 r2 t).2 e3 r3 t).2.foldl
      (fun a i => setRoleTeam a i rf t)
      (assignOptional (assignOptional (assignOptional ps idxs e1 r1 t).1
          (assignOptional ps idxs e1 r1 t).2 e2 r2 t).1
        (assignOptional (assignOptional ps idxs e1 r1 t).1
          (assignOptional ps idxs e1 r1 t).2 e2 r2 t).2 e3 r3 t).1).length =
      ps.length := by
  rw [foldl_setRoleTeam_length, assignOptional_fst_length, assignOptional_fst_length,
    assignOptional_fst_length]

theorem getD_optchain_ne (ps : List AvalonPlayer) (idxs : List Nat)
    (e1 e2 e3 : Bool) (r1 r2 r3 rf t : String) (j : Nat) (d : AvalonPlayer)
    (hj : j ∉ idxs) :
    ((assignOptional (assignOptional (assignOptional ps idxs e1 r1 t).1
        (assignOptional ps idxs e1 r1 t).2 e2 r2 t).1
        (assignOptional (assignOptional ps idxs e1 r1 t).1
          (assignOptional ps idxs e1 r1 t).2 e2 r2 t).2 e3 r3 t).2.foldl
      (fun a i => setRoleTeam a i rf t)
      (assignOptional (assignOptional (assignOptional ps idxs e1 r1 t).1
          (assignOptional ps idxs e1 r1 t).2 e2 r2 t).1
        (assignOptional (assignOptional ps idxs e1 r1 t).1
          (assignOptional ps idxs e1 r1 t).2 e2 r2 t).2 e3 r3 t).1).getD j d =
      ps.getD j d := by
  have h1 : j ∉ (assignOptional ps idxs e1 r1 t).2 :=
    fun h => hj (assignOptional_snd_subset _ _ _ _ _ _ h)
  have h2 : j ∉ (assignOptional (assignOptional ps idxs e1 r1 t).1
      (assignOptional ps idxs e1 r1 t).2 e2 r2 t).2 :=
    fun h => h1 (assignOptional_snd_subset _ _ _ _ _ _ h)
  have h3 : j ∉ (assignOptional (assignOptional (assignOptional ps idxs e1 r1 t).1
      (assignOptional ps idxs e1 r1 t).2 e2 r2 t).1
      (assignOptional (assignOptional ps idxs e1 r1 t).1
        (assignOptional ps idxs e1 r1 t).2 e2 r2 t).2 e3 r3 t).2 :=
    fun h => h2 (assignOptional_snd_subset _ _ _ _ _ _ h)
  rw [getD_foldl_setRoleTeam_ne _ _ _ _ _ _ h3,
    getD_assignOptional_ne _ _ _ _ _ _ _ h2,
    getD_assignOptional_ne _ _ _ _ _ _ _ h1,
    getD_assignOptional_ne _ _ _ _ _ _ _ hj]

theorem getD_optchain_mem (ps : List AvalonPlayer) (idxs : List Nat)
    (e1 e2 e3 : Bool) (r1 r2 r3 rf t : String) (j : Nat) (d : AvalonPlayer)
    (hnd : idxs.Nodup) (hj : j ∈ idxs) (hlt : j < ps.length) :
    (((assignOptional (assignOptional (assignOptional ps idxs e1 r1 t).1
        (assignOptional ps idxs e1 r1 t).2 e2 r2 t).1
        (assignOptional (assignOptional ps idxs e1 r1 t).1
          (assignOptional ps idxs e1 r1 t).2 e2 r2 t).2 e3 r3 t).2.foldl
      (fun a i => setRoleTeam a i rf t)
      (assignOptional (assignOptional (assignOptional ps idxs e1 r1 t).1
          (assignOptional ps idxs e1 r1 t).2 e2 r2 t).1
        (assignOptional (assignOptional ps idxs e1 r1 t).1
          (assignOptional ps idxs e1 r1 t).2 e2 r2 t).2 e3 r3 t).1).getD j d).team = t ∧
    ((((assignOptional (assignOptional (assignOptional ps idxs e1 r1 t).1
        (assignOptional ps idxs e1 r1 t).2 e2 r2 t).1
        (assignOptional (assignOptional ps idxs e1 r1 t).1
          (assignOptional ps idxs e1 r1 t).2 e2 r2 t).2 e3 r3 t).2.foldl
      (fun a i => setRoleTeam a i rf t)
      (assignOptional (assignOptional (assignOptional ps idxs e1 r1 t).1
          (assignOptional ps idxs e1 r1 t).2 e2 r2 t).1
        (assignOptional (assignOptional ps idxs e1 r1 t).1
          (assignOptional ps idxs e1 r1 t).2 e2 r2 t).2 e3 r3 t).1).getD j d).role = r1 ∨
     (((assignOptional (assignOptional (assignOptional ps idxs e1 r1 t).1
        (assignOptional ps idxs e1 r1 t).2 e2 r2 t).1
        (assignOptional (assignOptional ps idxs e1 r1 t).1
          (assignOptional ps idxs e1 r1 t).2 e2 r2 t).2 e3 r3 t).2.foldl
      (fun a i => setRoleTeam a i rf t)
      (assignOptional (assignOptional (assignOptional ps idxs e1 r1 t).1
          (assignOptional ps idxs e1 r1 t).2 e2 r2 t).1
        (assignOptional (assignOptional ps idxs e1 r1 t).1
          (assignOptional ps idxs e1 r1 t).2 e2 r2 t).2 e3 r3 t).1).getD j d).role = r2 ∨
     (((assignOptional (assignOptional (assignOptional ps idxs e1 r1 t).1
        (assignOptional ps idxs e1 r1 t).2 e2 r2 t).1
        (assignOptional (assignOptional ps idxs e1 r1 t).1
          (assignOptional ps idxs e1 r1 t).2 e2 r2 t).2 e3 r3 t).2.foldl
      (fun a i => setRoleTeam a i rf t)
      (assignOptional (assignOptional (assignOptional ps idxs e1 r1 t).1
          (assignOptional ps idxs e1 r1 t).2 e2 r2 t).1
        (assignOptional (assignOptional ps idxs e1 r1 t).1
          (assignOptional ps idxs e1 r1 t).2 e2 r2 t).2 e3 r3 t).1).getD j d).role = r3 ∨
     (((assignOptional (assignOptional (assignOptional ps idxs e1 r1 t).1
        (assignOptional ps idxs e1 r1 t).2 e2 r2 t).1
        (assignOptional (assignOptional ps idxs e1 r1 t).1
          (assignOptional ps idxs e1 r1 t).2 e2 r2 t).2 e3 r3 t).2.foldl
      (fun a i => setRoleTeam a i rf t)
      (assignOptional (assignOptional (assignOptional ps idxs e1 r1 t).1
          (assignOptional ps idxs e1 r1 t).2 e2 r2 t).1
        (assignOptional (assignOptional ps idxs e1 r1 t).1
          (assignOptional ps idxs e1 r1 t).2 e2 r2 t).2 e3 r3 t).1).getD j d).role = rf) := by
  rcases getD_assignOptional_mem ps idxs e1 r1 t j d hnd hj hlt
    with ⟨hr, ht, hout⟩ | ⟨_, hin⟩
  · have h2 : j ∉ (assignOptional (assignOptional ps idxs e1 r1 t).1
        (assignOptional ps idxs e1 r1 t).2 e2 r2 t).2 :=
      fun h => hout (assignOptional_snd_subset _ _ _ _ _ _ h)
    have h3 : j ∉ (assignOptional (assignOptional (assignOptional ps idxs e1 r1 t).1
        (assignOptional ps idxs e1 r1 t).2 e2 r2 t).1
        (assignOptional (assignOptional ps idxs e1 r1 t).1
          (assignOptional ps idxs e1 r1 t).2 e2 r2 t).2 e3 r3 t).2 :=
      fun h => h2 (assignOptional_snd_subset _ _ _ _ _ _ h)
    rw [getD_foldl_setRoleTeam_ne _ _ _ _ _ _ h3,
      getD_assignOptional_ne _ _ _ _ _ _ _ h2,
      getD_assignOptional_ne _ _ _ _ _ _ _ hout]
    exact ⟨ht, Or.inl hr⟩
  · have hnd1 := assignOptional_snd_nodup ps idxs e1 r1 t hnd
    have hlt1 : j < (assignOptional ps idxs e1 r1 t).1.length := by
      rw [assignOptional_fst_length]; exact hlt
    rcases getD_assignOptional_mem (assignOptional ps idxs e1 r1 t).1
        (assignOptional ps idxs e1 r1 t).2 e2 r2 t j d hnd1 hin hlt1
      with ⟨hr, ht, hout⟩ | ⟨_, hin2⟩
    · have h3 : j ∉ (assignOptional (assignOptional (assignOptional ps idxs e1 r1 t).1
          (assignOptional ps idxs e1 r1 t).2 e2 r2 t).1
          (assignOptional (assignOptional ps idxs e1 r1 t).1
            (assignOptional ps idxs e1 r1 t).2 e2 r2 t).2 e3 r3 t).2 :=
        fun h => hout (assignOptional_snd_subset _ _ _ _ _ _ h)
      rw [getD_foldl_setRoleTeam_ne _ _ _ _ _ _ h3,
        getD_assignOptional_ne _ _ _ _ _ _ _ hout]
      exact ⟨ht, Or.inr (Or.inl hr)⟩
    · have hnd2 := assignOptional_snd_nodup (assignOptional ps idxs e1 r1 t).1
        (assignOptional ps idxs e1 r1 t).2 e2 r2 t hnd1
      have hlt2 : j < (assignOptional (assignOptional ps idxs e1 r1 t).1
          (assignOptional ps idxs e1 r1 t).2 e2 r2 t).1.length := by
        rw [assignOptional_fst_length]; exact hlt1
      rcases getD_assignOptional_mem
          (assignOptional (assignOptional ps idxs e1 r1 t).1
            (assignOptional ps idxs e1 r1 t).2 e2 r2 t).1
          (assignOptional (assignOptional ps idxs e1 r1 t).1
            (assignOptional ps idxs e1 r1 t).2 e2 r2 t).2 e3 r3 t j d hnd2 hin2 hlt2
        with ⟨hr, ht, hout⟩ | ⟨_, hin3⟩
      · rw [getD_foldl_setRoleTeam_ne _ _ _ _ _ _ hout]
        exact ⟨ht, Or.inr (Or.inr (Or.inl hr))⟩
      · have hlt3 : j < (assignOptional (assignOptional (assignOptional ps idxs e1 r1 t).1
            (assignOptional ps idxs e1 r1 t).2 e2 r2 t).1
            (assignOptional (assignOptional ps idxs e1 r1 t).1
              (assignOptional ps idxs e1 r1 t).2 e2 r2 t).2 e3 r3 t).1.length := by
          rw [assignOptional_fst_length]; exact hlt2
        have hfold := getD_foldl_setRoleTeam_mem rf t _ _ j d hin3 hlt3
        exact ⟨hfold.2, Or.inr (Or.inr (Or.inr hfold.1))⟩

theorem assignEvil_length (ps : List AvalonPlayer) (e : List Nat)
    (o : AvalonOptions) : (assignEvil ps e o).length = ps.length := by
  simp only [assignEvil]
  rw [optchain_length, setRoleTeam_length]

theorem getD_assignEvil_ne (ps : List AvalonPlayer) (h : Nat) (tl : List Nat)
    (o : AvalonOptions) (j : Nat) (d : AvalonPlayer) (hj : j ∉ h :: tl) :
    (assignEvil ps (h :: tl) o).getD j d = ps.getD j d := by
  simp only [assignEvil, List.headD_cons, List.tail_cons]
  rw [getD_optchain_ne _ _ _ _ _ _ _ _ _ _ _ _
      (fun hm => hj (List.mem_cons_of_mem h hm)),
    getD_setRoleTeam_ne _ _ _ _ _ _
      (fun he : j = h => hj (he ▸ List.mem_cons_self h tl))]

theorem assignEvil_head (ps : List AvalonPlayer) (h : Nat) (tl : List Nat)
    (o : AvalonOptions) (d : AvalonPlayer)
    (hnd : (h :: tl).Nodup) (hlt : h < ps.length) :
    ((assignEvil ps (h :: tl) o).getD h d).role = "assassin" ∧
    ((assignEvil ps (h :: tl) o).getD h d).team = "evil" := by
  simp only [assignEvil, List.headD_cons, List.tail_cons]
  rw [getD_optchain_ne _ _ _ _ _ _ _ _ _ _ _ _ (List.nodup_cons.mp hnd).1,
    getD_setRoleTeam_self ps h _ _ d hlt]
  exact ⟨rfl, rfl⟩

theorem assignEvil_tail (ps : List AvalonPlayer) (h : Nat) (tl : List Nat)
    (o : AvalonOptions) (j : Nat) (d : AvalonPlayer)
    (hnd : (h :: tl).Nodup) (hj : j ∈ tl) (hlt : j < ps.length) :
    ((assignEvil ps (h :: tl) o).getD j d).team = "evil" ∧
    (((assignEvil ps (h :: tl) o).getD j d).role = "morgana" ∨
     ((assignEvil ps (h :: tl) o).getD j d).role = "mordred" ∨
     ((assignEvil ps (h :: tl) o).getD j d).role = "oberon" ∨
     ((assignEvil ps (h :: tl) o).getD j d).role = "minion") := by
  simp only [assignEvil, List.headD_cons, List.tail_cons]
  have hlt4 : j < (setRoleTeam ps h "assassin" "evil").length := by
    rw [setRoleTeam_length]; exact hlt
  exact getD_optchain_mem (setRoleTeam ps h "assassin" "evil") tl
    o.enableMorgana o.enableMordred o.enableOberon
    "morgana" "mordred" "oberon" "minion" "evil" j d
    (List.nodup_cons.mp hnd).2 hj hlt4

theorem list_eq_map_range_getD {α : Type} (l : List α) (d : α) :
    (List.range l.length).map (fun i => l.getD i d) = l := by
  induction l with
  | nil => rfl
  | cons a l ih =>
    rw [List.length_cons, List.range_succ_eq_map, List.map_cons, List.map_map]
    simp only [Function.comp_def, List.getD_cons_succ, List.getD_cons_zero]
    rw [ih]

/-! ## Claim theorems -/

/-- Claim C1: the claim says that in `quest_voting`, when the final vote is
recorded, the approvals are not a strict majority and the incremented vote
track is still below 5, `VoteQuest` completes successfully with the quest
rejected, the vote track incremented, the leader advanced and the phase back
to `quest_selection`.  The code instead sets `CurrentQuest` to nil on that
path and then dereferences it (`QuestTracker[CurrentRound-1] = *CurrentQuest`):
at the Scenario B input (5 players, 3 reject / 2 approve, vote track 0) the
handler hits the nil-pointer runtime panic instead of returning. -/
theorem C1_vote_rejection_nil_pointer_crash :
    handleQuestVote exC1 "p5" false = .error nilPointerPanic := by decide

/-- Claim C2: the claim says `FilterStateForPlayer` has no side effects.  In the
code, `filteredState := g.state` copies only the struct header — the
`Players` slice and the `CurrentQuest` pointer are shared — so the filtering
writes land in the canonical state: projecting for the Percival viewer `p2`
wipes the stored roles of the other players and replaces the current quest's
votes map with the viewer-only map. -/
theorem C2_filter_mutates_canonical_state :
    filterStateEffect exFilterState "p2" ≠ exFilterState ∧
    (filterStateEffect exFilterState "p2").players.map (fun p => p.role) ≠
      exFilterState.players.map (fun p => p.role) ∧
    (filterStateEffect exFilterState "p2").currentQuest.map (fun q => q.votes) ≠
      exFilterState.currentQuest.map (fun q => q.votes) := by decide

/-- Claim C5: the claim says projecting the same game instance twice for the same
viewer yields identical output.  Because the first call mutates the shared
state (see `filterStateEffect`), the second call filters already-filtered
data: for the Percival viewer `p2`, Merlin is tagged `merlin_or_morgana` in
the first projection but fully hidden in the second. -/
theorem C5_projection_not_idempotent :
    FilterStateForPlayer (filterStateEffect exFilterState "p2") "p2" ≠
      FilterStateForPlayer exFilterState "p2" := by decide

/-- Claim C8 counterexample: the claim says `PerformQuest` fails for an actor who
has already submitted a result for the current quest.  The handler keeps no
record of who submitted (results are anonymous booleans): `p1`, a member of
the two-player quest team of `exC8`, submits a result and then submits a
second one, and both calls succeed. -/
theorem C8_duplicate_submission_accepted :
    (handleQuestPerformance exC8 "p1" true).isOk = true ∧
    ((handleQuestPerformance exC8 "p1" true).toOption.map
        (fun s1 => (handleQuestPerformance s1 "p1" true).isOk)) = some true := by decide

/-- Claim C3: for every game state and every viewer who is a player in the
game, the projection reveals other players per the knowledge matrix: Merlin
sees team evil (role hidden) for every evil player except Mordred (fully
hidden); Percival sees Merlin and Morgana tagged `merlin_or_morgana` and
everyone else hidden; Assassin, Minion, Morgana and Mordred see team evil
for every evil player except Oberon (fully hidden); Oberon and Loyal
Servant see nothing; the viewer's own entry is unfiltered. -/
theorem C3_knowledge_matrix
    (s : AvalonState) (pid : String) (i : Nat)
    (hi : findPlayerIndex s pid = some i) :
    (FilterStateForPlayer s pid).players.getD i default = s.players.getD i default ∧
    (∀ j, j < s.players.length → j ≠ i →
      (let vr := (s.players.getD i default).role
       let p := s.players.getD j default
       let fp := (FilterStateForPlayer s pid).players.getD j default
       (vr = "merlin" →
          (p.role = "mordred" → fp.role = "" ∧ fp.team = "") ∧
          (p.role ≠ "mordred" → p.team = "evil" → fp.team = "evil" ∧ fp.role = "")) ∧
       (vr = "percival" →
          ((p.role = "merlin" ∨ p.role = "morgana") →
            fp.role = "merlin_or_morgana" ∧ fp.team = "") ∧
          (¬ (p.role = "merlin" ∨ p.role = "morgana") →
            fp.role = "" ∧ fp.team = "")) ∧
       ((vr = "assassin" ∨ vr = "minion" ∨ vr = "morgana" ∨ vr = "mordred") →
          (p.team = "evil" → p.role ≠ "oberon" → fp.team = "evil" ∧ fp.role = "") ∧
          (p.role = "oberon" → fp.role = "" ∧ fp.team = "") ∧
          (p.team ≠ "evil" → fp.role = "" ∧ fp.team = "")) ∧
       ((vr = "oberon" ∨ vr = "loyal") → fp.role = "" ∧ fp.team = ""))) := by
  have hlen : i < s.players.length := findPlayerIndex_lt_length hi
  have hplayers : (FilterStateForPlayer s pid).players =
      filterPlayersFrom (s.players.getD i default).role i 0 s.players := by
    unfold FilterStateForPlayer
    rw [hi]
    cases hcq : s.currentQuest with
    | none => simp
    | some q => simp
  constructor
  · rw [hplayers, filterPlayersFrom_getD _ _ _ _ 0 i hlen]
    simp
  · intro j hj hji
    intro vr p fp
    have hfp : fp = filterOtherPlayer vr p := by
      show (FilterStateForPlayer s pid).players.getD j default = _
      rw [hplayers, filterPlayersFrom_getD _ _ _ _ 0 j hj,
        if_neg (by omega : ¬ 0 + j = i)]
    refine ⟨?_, ?_, ?_, ?_⟩
    · intro hvr
      constructor
      · intro hrole
        rw [hfp]
        simp [filterOtherPlayer, hvr, hrole]
      · intro hrole hteam
        rw [hfp]
        simp [filterOtherPlayer, hvr, hrole, hteam]
    · intro hvr
      constructor
      · intro hrole
        rw [hfp]
        simp [filterOtherPlayer, hvr]
        rcases hrole with h | h <;> simp [h]
      · intro hrole
        rw [hfp]
        push_neg at hrole
        simp [filterOtherPlayer, hvr, hrole.1, hrole.2]
    · intro hvr
      refine ⟨?_, ?_, ?_⟩
      · intro hteam hrole
        rw [hfp]
        rcases hvr with h | h | h | h <;> simp [filterOtherPlayer, h, hteam, hrole]
      · intro hrole
        rw [hfp]
        rcases hvr with h | h | h | h <;> simp [filterOtherPlayer, h, hrole]
      · intro hteam
        rw [hfp]
        rcases hvr with h | h | h | h <;> simp [filterOtherPlayer, h, hteam]
    · intro hvr
      rw [hfp]
      rcases hvr with h | h <;> simp [filterOtherPlayer, h]

theorem C3_witness :
    findPlayerIndex exFilterState "p1" = some 0 ∧
    ((FilterStateForPlayer exFilterState "p1").players.getD 0 default =
        exFilterState.players.getD 0 default ∧
      (∀ j, j < exFilterState.players.length → j ≠ 0 →
        (let vr := (exFilterState.players.getD 0 default).role
         let p := exFilterState.players.getD j default
         let fp := (FilterStateForPlayer exFilterState "p1").players.getD j default
         (vr = "merlin" →
            (p.role = "mordred" → fp.role = "" ∧ fp.team = "") ∧
            (p.role ≠ "mordred" → p.team = "evil" → fp.team = "evil" ∧ fp.role = "")) ∧
         (vr = "percival" →
            ((p.role = "merlin" ∨ p.role = "morgana") →
              fp.role = "merlin_or_morgana" ∧ fp.team = "") ∧
            (¬ (p.role = "merlin" ∨ p.role = "morgana") →
              fp.role = "" ∧ fp.team = "")) ∧
         ((vr = "assassin" ∨ vr = "minion" ∨ vr = "morgana" ∨ vr = "mordred") →
            (p.team = "evil" → p.role ≠ "oberon" → fp.team = "evil" ∧ fp.role = "") ∧
            (p.role = "oberon" → fp.role = "" ∧ fp.team = "") ∧
            (p.team ≠ "evil" → fp.role = "" ∧ fp.team = "")) ∧
         ((vr = "oberon" ∨ vr = "loyal") → fp.role = "" ∧ fp.team = "")))) :=
  ⟨by decide, C3_knowledge_matrix exFilterState "p1" 0 (by decide)⟩

/-- Claim C4: in `quest_voting`, if the final recorded vote rejects the
proposal and brings the vote track to 5 or more, then in the same step the
game ends: `game_over` is set, the winning team is evil, the winners are
exactly the ids of all evil-team players, the phase becomes `game_over`,
and the leader index does not advance. -/
theorem C4_vote_track_exhaustion_evil_win
    (s : AvalonState) (pid : String) (b : Bool) (q : AvalonQuest) (i : Nat)
    (hphase : s.phase = "quest_voting")
    (hfound : findPlayerIndex s pid = some i)
    (hq : s.currentQuest = some q)
    (hnv : q.votes.lookup pid = none)
    (hall : (q.votes ++ [(pid, b)]).length = s.players.length)
    (hrej : ¬ ((q.votes ++ [(pid, b)]).filter (fun kv => kv.2)).length >
        s.players.length / 2)
    (htrack : s.voteTrack + 1 ≥ 5) :
    ∃ s', handleQuestVote s pid b = .ok s' ∧
      s'.gameOver = true ∧
      s'.winningTeam = "evil" ∧
      (∀ x, x ∈ s'.winners ↔ ∃ p ∈ s.players, p.team = "evil" ∧ p.id = x) ∧
      s'.phase = "game_over" ∧
      s'.leader = s.leader := by
  unfold handleQuestVote
  rw [hphase, hq]
  simp only [hfound, hnv, hall]
  rw [if_neg hrej, if_pos htrack]
  simp only [ne_eq, not_true_eq_false, if_false, Option.isSome_none,
    Bool.false_eq_true, reduceCtorEq, if_true, ite_true, ite_false]
  refine ⟨_, rfl, rfl, rfl, ?_, rfl, rfl⟩
  intro x
  simp [setWinners, List.mem_map, List.mem_filter]
  constructor
  · rintro ⟨p, ⟨hp, ht⟩, hid⟩
    exact ⟨p, hp, ht, hid⟩
  · rintro ⟨p, hp, ht, hid⟩
    exact ⟨p, ⟨hp, ht⟩, hid⟩

theorem C4_witness :
    exC4.voteTrack + 1 ≥ 5 ∧
    ∃ s', handleQuestVote exC4 "p5" false = .ok s' ∧
      s'.gameOver = true ∧ s'.winningTeam = "evil" ∧
      (∀ x, x ∈ s'.winners ↔ ∃ p ∈ exC4.players, p.team = "evil" ∧ p.id = x) ∧
      s'.phase = "game_over" ∧ s'.leader = exC4.leader :=
  ⟨by decide,
   C4_vote_track_exhaustion_evil_win exC4 "p5" false _ 4 rfl rfl rfl rfl
     (by decide) (by decide) (by decide)⟩

/-- Claim C6: in `quest_voting` with N players, when the Nth vote is
recorded the proposal is approved exactly when the approve count exceeds
N/2 (integer division); on approval the vote track resets to 0, the quest's
status becomes `approved` (both in `currentQuest` and in the tracker
entry), and the phase becomes `quest_performance`. -/
theorem C6_strict_majority_approval
    (s : AvalonState) (pid : String) (b : Bool) (q : AvalonQuest) (i : Nat)
    (hphase : s.phase = "quest_voting")
    (hfound : findPlayerIndex s pid = some i)
    (hq : s.currentQuest = some q)
    (hnv : q.votes.lookup pid = none)
    (hall : (q.votes ++ [(pid, b)]).length = s.players.length)
    (hround : s.currentRound - 1 < s.questTracker.length) :
    (((q.votes ++ [(pid, b)]).filter (fun kv => kv.2)).length > s.players.length / 2 →
      ∃ s', handleQuestVote s pid b = .ok s' ∧
        s'.currentQuest =
          some { q with votes := q.votes ++ [(pid, b)], status := "approved" } ∧
        s'.voteTrack = 0 ∧
        s'.phase = "quest_performance" ∧
        s'.questTracker.getD (s.currentRound - 1) default =
          { q with votes := q.votes ++ [(pid, b)], status := "approved" }) ∧
    ((∃ s' q', handleQuestVote s pid b = .ok s' ∧ s'.currentQuest = some q' ∧
        q'.status = "approved") ↔
      ((q.votes ++ [(pid, b)]).filter (fun kv => kv.2)).length > s.players.length / 2) := by
  by_cases happr :
      ((q.votes ++ [(pid, b)]).filter (fun kv => kv.2)).length > s.players.length / 2
  · unfold handleQuestVote
    rw [hphase, hq]
    simp only [hfound, hnv, hall]
    rw [if_pos happr]
    simp only [ne_eq, not_true_eq_false, if_false, Option.isSome_none,
      Bool.false_eq_true, reduceCtorEq, if_true, ite_true, ite_false]
    constructor
    · intro _
      refine ⟨_, rfl, rfl, rfl, rfl, ?_⟩
      exact getD_set_self _ _ _ _ hround
    · exact ⟨fun _ => happr, fun _ => ⟨_, _, rfl, rfl, rfl⟩⟩
  · unfold handleQuestVote
    rw [hphase, hq]
    simp only [hfound, hnv, hall]
    rw [if_neg happr]
    simp only [ne_eq, not_true_eq_false, if_false, Option.isSome_none,
      Bool.false_eq_true, reduceCtorEq, if_true, ite_true, ite_false]
    constructor
    · intro h
      exact absurd h happr
    · constructor
      · rintro ⟨s', q', hok, hcq, hst⟩
        by_cases htr : s.voteTrack + 1 ≥ 5
        · rw [if_pos htr] at hok
          cases hok
          simp only [Option.some.injEq] at hcq
          rw [← hcq] at hst
          simp at hst
        · rw [if_neg htr] at hok
          exact absurd hok (by simp)
      · intro h
        exact absurd h happr

theorem C6_witness :
    ((exC6q.votes ++ [("p5", true)]).filter (fun kv => kv.2)).length >
        exC6.players.length / 2 ∧
    ∃ s', handleQuestVote exC6 "p5" true = .ok s' ∧
      s'.currentQuest =
        some { exC6q with votes := exC6q.votes ++ [("p5", true)], status := "approved" } ∧
      s'.voteTrack = 0 ∧
      s'.phase = "quest_performance" ∧
      s'.questTracker.getD (exC6.currentRound - 1) default =
        { exC6q with votes := exC6q.votes ++ [("p5", true)], status := "approved" } :=
  ⟨by decide,
   (C6_strict_majority_approval exC6 "p5" true exC6q 4 rfl rfl rfl rfl
      (by decide) (by decide)).1 (by decide)⟩

/-- Claim C7: in `quest_performance`, when the submitted results reach the
quest-team size, the quest's status is set to `fail` exactly when the
number of `false` results reaches the required-fails threshold — 1, except
in round 4 of a game with at least 7 players where the per-player-count
table yields 2 — and to `success` otherwise. -/
theorem C7_fail_threshold
    (s : AvalonState) (pid : String) (b : Bool) (q : AvalonQuest) (i : Nat)
    (hphase : s.phase = "quest_performance")
    (hfound : findPlayerIndex s pid = some i)
    (hq : s.currentQuest = some q)
    (hsel : q.selectedPlayers.contains pid = true)
    (hallow : b = true ∨ (s.players.getD i default).team = "evil")
    (hfin : q.results.length + 1 = q.selectedPlayers.length)
    (hreq : s.questRequirements = getQuestRequirements)
    (h10 : s.players.length ≤ 10)
    (hround : s.currentRound - 1 < s.questTracker.length) :
    ∃ s', handleQuestPerformance s pid b = .ok s' ∧
      (s'.questTracker.getD (s.currentRound - 1) default).status =
        (if ((q.results ++ [b]).filter (fun x => !x)).length ≥
            (if s.currentRound = 4 ∧ s.players.length ≥ 7 then 2 else 1)
         then "fail" else "success") := by
  have hguard : ¬ (¬ b = true ∧ (s.players.getD i default).team ≠ "evil") := by
    rcases hallow with h | h
    · simp [h]
    · intro hc
      exact hc.2 h
  have hlen : (q.results ++ [b]).length = q.selectedPlayers.length := by
    simp [List.length_append]
    omega
  have hfr : (if s.currentRound = 4 ∧ s.players.length ≥ 7 then
        match s.questRequirements.find?
            (fun req => req.playerCount = s.players.length) with
        | some req => req.failsRequiredForQuest4
        | none => 1
      else 1) = (if s.currentRound = 4 ∧ s.players.length ≥ 7 then 2 else 1) := by
    by_cases h4 : s.currentRound = 4 ∧ s.players.length ≥ 7
    · rw [if_pos h4, if_pos h4, hreq]
      obtain ⟨req, hfind, hfr2⟩ :=
        Option.map_eq_some'.mp (find_req_fails_two s.players.length h4.2 h10)
      rw [hfind]
      exact hfr2
    · rw [if_neg h4, if_neg h4]
  unfold handleQuestPerformance
  rw [hphase, hq]
  simp only [hfound, hsel]
  rw [if_neg hguard]
  simp only [hlen, hfr]
  simp only [ne_eq, not_true_eq_false, if_false, ite_true, ite_false, not_true,
    if_true, Bool.not_eq_true]
  split_ifs
  all_goals refine ⟨_, rfl, ?_⟩
  all_goals first
    | rw [getD_set_self _ _ _ _ hround]
    | rw [advanceRound_questTracker, getD_set_self _ _ _ _ hround]

theorem C7_witness :
    exC7.currentRound = 4 ∧ exC7.players.length = 7 ∧
    ∃ s', handleQuestPerformance exC7 "q7" false = .ok s' ∧
      (s'.questTracker.getD (exC7.currentRound - 1) default).status =
        (if ((ex7Quest.results ++ [false]).filter (fun x => !x)).length ≥
            (if exC7.currentRound = 4 ∧ exC7.players.length ≥ 7 then 2 else 1)
         then "fail" else "success") :=
  ⟨rfl, rfl,
   C7_fail_threshold exC7 "q7" false ex7Quest 6 rfl (by decide) rfl (by decide)
     (Or.inr (by decide)) (by decide) rfl (by decide) (by decide)⟩

/-- Claim C8 (amended): `PerformQuest` keeps no per-member submission
record, so it accepts a submission from any selected team member regardless
of prior submissions (no hypothesis below mentions the actor's earlier
results); each accepted call appends one result, and the call that makes
the count reach the team size resolves the quest and leaves the
`quest_performance` phase, which is what bounds the results length. -/
theorem C8_resubmission_allowed_and_bounded
    (s : AvalonState) (pid : String) (b : Bool) (q : AvalonQuest) (i : Nat)
    (hphase : s.phase = "quest_performance")
    (hfound : findPlayerIndex s pid = some i)
    (hq : s.currentQuest = some q)
    (hsel : q.selectedPlayers.contains pid = true)
    (hallow : b = true ∨ (s.players.getD i default).team = "evil") :
    ∃ s', handleQuestPerformance s pid b = .ok s' ∧
      (q.results.length + 1 < q.selectedPlayers.length →
        s'.currentQuest = some { q with results := q.results ++ [b] } ∧
        s'.phase = "quest_performance") ∧
      (q.results.length + 1 = q.selectedPlayers.length →
        s'.phase ≠ "quest_performance") := by
  have hguard : ¬ (¬ b = true ∧ (s.players.getD i default).team ≠ "evil") := by
    rcases hallow with h | h
    · simp [h]
    · intro hc
      exact hc.2 h
  unfold handleQuestPerformance
  rw [hphase, hq]
  simp only [hfound, hsel]
  rw [if_neg hguard]
  by_cases heq : (q.results ++ [b]).length = q.selectedPlayers.length
  · have heq1 : q.results.length + 1 = q.selectedPlayers.length := by
      simpa using heq
    simp only [heq]
    simp only [ne_eq, not_true_eq_false, if_false, ite_true, ite_false, not_true,
      if_true]
    split_ifs
    all_goals refine ⟨_, rfl, fun h2 => absurd heq1 (by omega), fun _ => ?_⟩
    all_goals simp [advanceRound, advanceLeader]
  · rw [if_neg heq]
    refine ⟨_, rfl, ?_, ?_⟩
    · intro _
      exact ⟨rfl, rfl⟩
    · intro h2
      have : (q.results ++ [b]).length = q.selectedPlayers.length := by
        simpa using h2
      exact absurd this heq

theorem C8_resubmission_allowed_and_bounded_witness :
    exPerfQuest.results.length < exPerfQuest.selectedPlayers.length ∧
    ∃ s', handleQuestPerformance exC8 "p1" true = .ok s' ∧
      (exPerfQuest.results.length + 1 < exPerfQuest.selectedPlayers.length →
        s'.currentQuest = some { exPerfQuest with results := exPerfQuest.results ++ [true] } ∧
        s'.phase = "quest_performance") ∧
      (exPerfQuest.results.length + 1 = exPerfQuest.selectedPlayers.length →
        s'.phase ≠ "quest_performance") :=
  ⟨by decide,
   C8_resubmission_allowed_and_bounded exC8 "p1" true exPerfQuest 0 rfl (by decide)
     rfl (by decide) (Or.inl rfl)⟩

/-- Claim C9: assuming a well-formed payload, `SelectQuestTeam` fails
exactly when the phase is not `quest_selection`, the actor is not the
current leader, the selected list's length differs from the active round's
required size, or some listed id is unknown; with none of these (and no
duplicate check — a repeated known id passes), it succeeds, storing the
list as `selected_players` with votes reset to empty, status `voting`, and
phase `quest_voting`. -/
theorem C9_selection_conditions
    (s : AvalonState) (pid : String) (sel : List String)
    (hround : s.currentRound - 1 < s.questTracker.length) :
    ((∃ e, handleQuestSelection s pid sel = .error e) ↔
      (s.phase ≠ "quest_selection" ∨ isCurrentLeader s pid = false ∨
       sel.length ≠ (s.questTracker.getD (s.currentRound - 1) default).requiredPlayers ∨
       ∃ id ∈ sel, findPlayerIndex s id = none)) ∧
    (¬ (s.phase ≠ "quest_selection" ∨ isCurrentLeader s pid = false ∨
        sel.length ≠ (s.questTracker.getD (s.currentRound - 1) default).requiredPlayers ∨
        ∃ id ∈ sel, findPlayerIndex s id = none) →
      ∃ s' q', handleQuestSelection s pid sel = .ok s' ∧
        q'.selectedPlayers = sel ∧ q'.votes = [] ∧ q'.status = "voting" ∧
        s'.currentQuest = some q' ∧ s'.phase = "quest_voting" ∧
        s'.questTracker.getD (s.currentRound - 1) default = q') := by
  unfold handleQuestSelection
  by_cases hp : s.phase = "quest_selection"
  · rw [if_neg (not_not_intro hp)]
    by_cases hl : isCurrentLeader s pid = true
    · rw [if_neg (show ¬ ¬ isCurrentLeader s pid = true from not_not_intro hl)]
      by_cases hsz : sel.length =
          (s.questTracker.getD (s.currentRound - 1) default).requiredPlayers
      · rw [if_neg (not_not_intro hsz)]
        by_cases hbad : sel.any (fun id => findPlayerIndex s id = none) = true
        · rw [if_pos hbad]
          have hex : ∃ id ∈ sel, findPlayerIndex s id = none := by
            simpa using hbad
          constructor
          · constructor
            · intro _
              exact Or.inr (Or.inr (Or.inr hex))
            · intro _
              exact ⟨_, rfl⟩
          · intro hc
            exact absurd (Or.inr (Or.inr (Or.inr hex))) hc
        · rw [if_neg hbad]
          constructor
          · constructor
            · rintro ⟨e, he⟩
              simp at he
            · intro hc
              rcases hc with h | h | h | h
              · exact absurd hp h
              · rw [hl] at h
                simp at h
              · exact absurd hsz h
              · exact absurd (by simpa using h) hbad
          · intro _
            refine ⟨_, _, rfl, rfl, rfl, rfl, rfl, rfl, ?_⟩
            exact getD_set_self _ _ _ _ hround
      · rw [if_pos hsz]
        constructor
        · constructor
          · intro _
            exact Or.inr (Or.inr (Or.inl hsz))
          · intro _
            exact ⟨_, rfl⟩
        · intro hc
          exact absurd (Or.inr (Or.inr (Or.inl hsz))) hc
    · rw [if_pos hl]
      have hlead : isCurrentLeader s pid = false := by
        simpa using hl
      constructor
      · constructor
        · intro _
          exact Or.inr (Or.inl hlead)
        · intro _
          exact ⟨_, rfl⟩
      · intro hc
        exact absurd (Or.inr (Or.inl hlead)) hc
  · rw [if_pos hp]
    constructor
    · constructor
      · intro _
        exact Or.inl hp
      · intro _
        exact ⟨_, rfl⟩
    · intro hc
      exact absurd (Or.inl hp) hc

theorem C9_witness :
    ¬ (exC9.phase ≠ "quest_selection" ∨ isCurrentLeader exC9 "p1" = false ∨
       (["p3", "p3"] : List String).length ≠
         (exC9.questTracker.getD (exC9.currentRound - 1) default).requiredPlayers ∨
       ∃ id ∈ (["p3", "p3"] : List String), findPlayerIndex exC9 id = none) ∧
    ∃ s' q', handleQuestSelection exC9 "p1" ["p3", "p3"] = .ok s' ∧
      q'.selectedPlayers = ["p3", "p3"] ∧ q'.votes = [] ∧ q'.status = "voting" ∧
      s'.currentQuest = some q' ∧ s'.phase = "quest_voting" ∧
      s'.questTracker.getD (exC9.currentRound - 1) default = q' :=
  ⟨by decide,
   (C9_selection_conditions exC9 "p1" ["p3", "p3"] (by decide)).2 (by decide)⟩

/-- Claim C10: for every successful role assignment over N players
(5 ≤ N ≤ 10) — i.e. for every shuffled permutation of the player indices —
exactly E players end on team evil, where E is N/3 for 5–6 players, 2 for
7–8, 3 for 9 and 4 for 10; exactly one player holds the Assassin role, that
player is on team evil, and every remaining player is on team good with a
good role (Merlin, Percival or Loyal Servant). -/
theorem C10_role_assignment
    (ps : List AvalonPlayer) (indices : List Nat) (opts : AvalonOptions)
    (hperm : indices.Perm (List.range ps.length))
    (h5 : 5 ≤ ps.length) (h10 : ps.length ≤ 10) :
    ((assignRoles ps indices opts).filter (fun p => p.team = "evil")).length =
      (if ps.length ≤ 6 then ps.length / 3 else if ps.length ≤ 8 then 2
       else if ps.length = 9 then 3 else 4) ∧
    ((assignRoles ps indices opts).filter (fun p => p.role = "assassin")).length = 1 ∧
    (∀ p ∈ assignRoles ps indices opts, p.role = "assassin" → p.team = "evil") ∧
    (∀ p ∈ assignRoles ps indices opts, p.team ≠ "evil" →
      p.team = "good" ∧
      (p.role = "merlin" ∨ p.role = "percival" ∨ p.role = "loyal")) := by
  have hndi : indices.Nodup := hperm.nodup_iff.mpr (List.nodup_range _)
  have hleni : indices.length = ps.length := by
    rw [hperm.length_eq, List.length_range]
  have hmemi : ∀ j, j ∈ indices ↔ j < ps.length := by
    intro j
    rw [hperm.mem_iff, List.mem_range]
  set E := (if ps.length = 9 then 3 else if ps.length = 10 then 4
    else ps.length / 3) with hE
  have hE1 : 1 ≤ E := by
    rw [hE]
    split_ifs <;> omega
  have hEn : E ≤ ps.length := by
    rw [hE]
    split_ifs <;> omega
  set g := indices.take (ps.length - E) with hg
  set e := indices.drop (ps.length - E) with he
  have hge : g ++ e = indices := List.take_append_drop _ indices
  have hndg : g.Nodup := hndi.sublist (List.take_sublist _ _)
  have hnde : e.Nodup := hndi.sublist (List.drop_sublist _ _)
  have hdisj : ∀ j, j ∈ g → j ∉ e := by
    have hnd2 := hge ▸ hndi
    exact fun j hjg hje => (List.nodup_append.mp hnd2).2.2 hjg hje
  have hgb : ∀ j ∈ g, j < ps.length := by
    intro j hj
    exact (hmemi j).mp (hge ▸ List.mem_append_left e hj)
  have heb : ∀ j ∈ e, j < ps.length := by
    intro j hj
    exact (hmemi j).mp (hge ▸ List.mem_append_right g hj)
  have helen : e.length = E := by
    rw [he, List.length_drop, hleni]
    omega
  have hres : assignRoles ps indices opts = assignEvil (assignGood ps g opts) e opts := by
    simp only [assignRoles]
  obtain ⟨h0, tl, hecons⟩ : ∃ h0 tl, e = h0 :: tl := by
    cases hc : e with
    | nil =>
      exfalso
      rw [hc] at helen
      simp only [List.length_nil] at helen
      omega
    | cons x xs => exact ⟨x, xs, rfl⟩
  rw [hecons] at hres hnde hdisj heb helen hge
  have hgoodlen : (assignGood ps g opts).length = ps.length :=
    assignGood_length ps g opts
  have hreslen : (assignEvil (assignGood ps g opts) (h0 :: tl) opts).length = ps.length := by
    rw [assignEvil_length, assignGood_length]
  have hpgood : ∀ j ∈ g,
      ((assignEvil (assignGood ps g opts) (h0 :: tl) opts).getD j default).team = "good" ∧
      (((assignEvil (assignGood ps g opts) (h0 :: tl) opts).getD j default).role = "merlin" ∨
       ((assignEvil (assignGood ps g opts) (h0 :: tl) opts).getD j default).role = "percival" ∨
       ((assignEvil (assignGood ps g opts) (h0 :: tl) opts).getD j default).role = "loyal") := by
    intro j hj
    rw [getD_assignEvil_ne _ _ _ _ _ _ (hdisj j hj)]
    exact getD_assignGood_mem ps g opts j default hndg hj (hgb j hj)
  have hptail : ∀ j ∈ tl,
      ((assignEvil (assignGood ps g opts) (h0 :: tl) opts).getD j default).team = "evil" ∧
      (((assignEvil (assignGood ps g opts) (h0 :: tl) opts).getD j default).role = "morgana" ∨
       ((assignEvil (assignGood ps g opts) (h0 :: tl) opts).getD j default).role = "mordred" ∨
       ((assignEvil (assignGood ps g opts) (h0 :: tl) opts).getD j default).role = "oberon" ∨
       ((assignEvil (assignGood ps g opts) (h0 :: tl) opts).getD j default).role = "minion") := by
    intro j hj
    have hjlt : j < (assignGood ps g opts).length := by
      rw [hgoodlen]
      exact heb j (List.mem_cons_of_mem h0 hj)
    exact assignEvil_tail (assignGood ps g opts) h0 tl opts j default hnde hj hjlt
  have hphead :
      ((assignEvil (assignGood ps g opts) (h0 :: tl) opts).getD h0 default).role = "assassin" ∧
      ((assignEvil (assignGood ps g opts) (h0 :: tl) opts).getD h0 default).team = "evil" := by
    have hjlt : h0 < (assignGood ps g opts).length := by
      rw [hgoodlen]
      exact heb h0 (List.mem_cons_self h0 tl)
    exact assignEvil_head (assignGood ps g opts) h0 tl opts default hnde hjlt
  have hpevil : ∀ j ∈ h0 :: tl,
      ((assignEvil (assignGood ps g opts) (h0 :: tl) opts).getD j default).team = "evil" := by
    intro j hj
    rcases List.mem_cons.mp hj with rfl | hjt
    · exact hphead.2
    · exact (hptail j hjt).1
  have hcnt : ∀ P : AvalonPlayer → Bool,
      ((assignEvil (assignGood ps g opts) (h0 :: tl) opts).filter P).length =
        g.countP (fun i =>
          P ((assignEvil (assignGood ps g opts) (h0 :: tl) opts).getD i default)) +
        (h0 :: tl).countP (fun i =>
          P ((assignEvil (assignGood ps g opts) (h0 :: tl) opts).getD i default)) := by
    intro P
    rw [← List.countP_eq_length_filter]
    conv_lhs =>
      rw [← list_eq_map_range_getD (assignEvil (assignGood ps g opts) (h0 :: tl) opts)
        default]
    rw [hreslen, List.countP_map, ← hperm.countP_eq, ← hge, List.countP_append]
    simp only [Function.comp_def]
  have hmemres : ∀ p ∈ assignEvil (assignGood ps g opts) (h0 :: tl) opts,
      ∃ j, j < ps.length ∧
        (assignEvil (assignGood ps g opts) (h0 :: tl) opts).getD j default = p := by
    intro p hp
    obtain ⟨i, hi, hig⟩ := List.mem_iff_getElem.mp hp
    refine ⟨i, ?_, ?_⟩
    · rw [← hreslen]
      exact hi
    · rw [List.getD_eq_getElem _ _ hi, hig]
  rw [hres]
  refine ⟨?_, ?_, ?_, ?_⟩
  · rw [hcnt]
    have hz : g.countP (fun i =>
        decide (((assignEvil (assignGood ps g opts) (h0 :: tl) opts).getD i default).team
          = "evil")) = 0 := by
      refine List.countP_eq_zero.mpr ?_
      intro j hj
      simp only [decide_eq_true_eq]
      rw [(hpgood j hj).1]
      decide
    have hl : (h0 :: tl).countP (fun i =>
        decide (((assignEvil (assignGood ps g opts) (h0 :: tl) opts).getD i default).team
          = "evil")) = (h0 :: tl).length := by
      refine List.countP_eq_length.mpr ?_
      intro j hj
      simp only [decide_eq_true_eq]
      exact hpevil j hj
    rw [hz, hl, helen, hE]
    split_ifs <;> omega
  · rw [hcnt]
    have hz : g.countP (fun i =>
        decide (((assignEvil (assignGood ps g opts) (h0 :: tl) opts).getD i default).role
          = "assassin")) = 0 := by
      refine List.countP_eq_zero.mpr ?_
      intro j hj
      simp only [decide_eq_true_eq]
      rcases (hpgood j hj).2 with h1 | h1 | h1 <;> rw [h1] <;> decide
    have hz2 : tl.countP (fun i =>
        decide (((assignEvil (assignGood ps g opts) (h0 :: tl) opts).getD i default).role
          = "assassin")) = 0 := by
      refine List.countP_eq_zero.mpr ?_
      intro j hj
      simp only [decide_eq_true_eq]
      rcases (hptail j hj).2 with h1 | h1 | h1 | h1 <;> rw [h1] <;> decide
    rw [hz, List.countP_cons, hz2]
    simp only [decide_eq_true_eq]
    rw [hphead.1]
    simp
  · intro p hp hrole
    obtain ⟨j, hj, hje⟩ := hmemres p hp
    have hjge : j ∈ g ++ (h0 :: tl) := hge.symm ▸ (hmemi j).mpr hj
    rcases List.mem_append.mp hjge with hjg | hjev
    · rcases (hpgood j hjg).2 with h1 | h1 | h1 <;> rw [hje, hrole] at h1 <;>
        exact absurd h1 (by decide)
    · rw [← hje]
      exact hpevil j hjev
  · intro p hp hteam
    obtain ⟨j, hj, hje⟩ := hmemres p hp
    have hjge : j ∈ g ++ (h0 :: tl) := hge.symm ▸ (hmemi j).mpr hj
    rcases List.mem_append.mp hjge with hjg | hjev
    · have hgj := hpgood j hjg
      rw [hje] at hgj
      exact ⟨hgj.1, hgj.2⟩
    · exact absurd (hje ▸ hpevil j hjev) hteam

theorem C10_witness :
    exIndices.Perm (List.range exBlankPlayers.length) ∧
    5 ≤ exBlankPlayers.length ∧ exBlankPlayers.length ≤ 10 ∧
    (((assignRoles exBlankPlayers exIndices exOptions).filter
        (fun p => p.team = "evil")).length =
      (if exBlankPlayers.length ≤ 6 then exBlankPlayers.length / 3
       else if exBlankPlayers.length ≤ 8 then 2
       else if exBlankPlayers.length = 9 then 3 else 4) ∧
     ((assignRoles exBlankPlayers exIndices exOptions).filter
        (fun p => p.role = "assassin")).length = 1 ∧
     (∀ p ∈ assignRoles exBlankPlayers exIndices exOptions,
        p.role = "assassin" → p.team = "evil") ∧
     (∀ p ∈ assignRoles exBlankPlayers exIndices exOptions, p.team ≠ "evil" →
        p.team = "good" ∧
        (p.role = "merlin" ∨ p.role = "percival" ∨ p.role = "loyal"))) :=
  ⟨by decide, by decide, by decide,
   C10_role_assignment exBlankPlayers exIndices exOptions (by decide)
     (by decide) (by decide)⟩
